import Mathlib

/-!
Verification of `src/tutorial-word-addin/src/taskpane/taskpane.js`.

The script registers UI button handlers against the Word host automation
API.  The host (document body, paragraph collection, selection range,
synchronization primitive) is external to the repository, so it is
embedded here as a small state model following the spec's description of
the external interfaces: a document is a list of paragraphs plus the
current selection range, kept as a zipper (text before the selection,
the selected text, text after it); handlers queue mutation commands that
the host applies, in order, at each `context.sync()` round-trip, and a
range's `text` property can be read only after a `load` followed by a
sync.  The nine handlers and the `tryCatch` wrapper are translated from
the source line by line.
-/

/-- Host model of `Word.InsertLocation`; `atEnd` stands for the member
named `end` in the host enum (a keyword here). -/
inductive InsertLocation where
  | start
  | atEnd
  | before
  | after
  | replace
deriving Repr, DecidableEq

/-- Host model: the font attributes that `font.set({name, bold, size})`
assigns in `changeFont`. -/
structure Font where
  name : String
  bold : Bool
  size : Nat
deriving Repr, DecidableEq

/-- Host model: built-in paragraph styles; only `intenseReference` is used
by the script (`Word.Style.intenseReference`), `normal` is the host
default. -/
inductive BuiltInStyle where
  | normal
  | intenseReference
deriving Repr, DecidableEq

/-- Host model: one paragraph of the document body, carrying the
attributes the script can set (text, built-in style, named custom style,
font). -/
structure Paragraph where
  text : String
  styleBuiltIn : BuiltInStyle
  style : String
  font : Font
deriving Repr, DecidableEq

/-- Host model: a freshly inserted paragraph carrying the host's default
formatting. -/
def newParagraph (t : String) : Paragraph :=
  { text := t
    styleBuiltIn := BuiltInStyle.normal
    style := "Normal"
    font := { name := "Calibri", bold := false, size := 11 } }

/-- Host model of the live document: the body's paragraph list, and the
current selection range kept as a zipper inside the surrounding document
text (`selBefore` immediately precedes the range, `selText` is the
range's own text, `selAfter` immediately follows it). -/
structure WordDoc where
  paragraphs : List Paragraph
  selBefore : String
  selText : String
  selAfter : String
deriving Repr, DecidableEq

/-- Host model: the single "host operation failed" condition of the spec,
split by the host reason (missing collection item, unsupported insert
location, reading a range property that was never loaded). -/
inductive HostError where
  | itemNotFound
  | invalidArgument
  | propertyNotLoaded
deriving Repr, DecidableEq

/-- Host model: a lazy paragraph proxy as produced by the navigation
methods of the paragraph collection (`getFirst`, `getLast`, `getNext`)
and by `insertParagraph` (`created k` is the k-th paragraph created in
the current batch); proxies are resolved to indices only when the queued
batch executes at a sync. -/
inductive ParaRef where
  | first
  | last
  | next (p : ParaRef)
  | created (k : Nat)
deriving Repr, DecidableEq

/-- Host model: the mutation commands the script queues against the host
document between two synchronization points. -/
inductive HostCmd where
  | bodyInsertParagraph (text : String) (loc : InsertLocation)
  | selInsertText (text : String) (loc : InsertLocation)
  | setStyleBuiltIn (p : ParaRef) (s : BuiltInStyle)
  | setStyle (p : ParaRef) (s : String)
  | setFont (p : ParaRef) (f : Font)
  | paraInsertParagraph (p : ParaRef) (text : String) (loc : InsertLocation)
  | paraInsertHtml (p : ParaRef) (html : String) (loc : InsertLocation)
deriving Repr, DecidableEq

/-- Host model: execution state of one queued batch: the document being
mutated and the body positions of the paragraphs created so far in the
batch, in creation order. -/
structure ExecState where
  doc : WordDoc
  created : List Nat
deriving Repr, DecidableEq

/-- Insert `a` at position `i` of `l`. -/
def insertAt (l : List α) (i : Nat) (a : α) : List α :=
  l.take i ++ a :: l.drop i

/-- Replace the element at position `i` of `l` by `a`. -/
def setAt (l : List α) (i : Nat) (a : α) : List α :=
  l.take i ++ a :: l.drop (i + 1)

/-- Host model: resolve a paragraph proxy to a body index against the
current execution state; a missing item is the host's item-not-found
failure, surfacing at the sync that executes the batch. -/
def resolvePara (st : ExecState) : ParaRef → Except HostError Nat
  | ParaRef.first =>
    match st.doc.paragraphs with
    | [] => Except.error HostError.itemNotFound
    | _ :: _ => Except.ok 0
  | ParaRef.last =>
    match st.doc.paragraphs with
    | [] => Except.error HostError.itemNotFound
    | _ :: t => Except.ok t.length
  | ParaRef.next p => do
    let i ← resolvePara st p
    match st.doc.paragraphs.get? (i + 1) with
    | some _ => Except.ok (i + 1)
    | none => Except.error HostError.itemNotFound
  | ParaRef.created k =>
    match st.created.get? k with
    | some i => Except.ok i
    | none => Except.error HostError.itemNotFound

/-- Host model: apply an attribute update to the paragraph a proxy
resolves to. -/
def modifyPara (st : ExecState) (p : ParaRef) (f : Paragraph → Paragraph) :
    Except HostError ExecState := do
  let i ← resolvePara st p
  match st.doc.paragraphs.get? i with
  | some q =>
    Except.ok { st with doc := { st.doc with paragraphs := setAt st.doc.paragraphs i (f q) } }
  | none => Except.error HostError.itemNotFound

/-- Host model: execute one queued command.  `body.insertParagraph`
prepends/appends a default-formatted paragraph; `range.insertText` on the
selection edits the selection zipper (inserting at `end`/`start` extends
the range, `before`/`after` leave it untouched, `replace` substitutes its
text); `paragraph.insertParagraph` records the created position so later
commands can target the new paragraph; `insertHtml` hands the raw
fragment to the host unchanged (rendering is the host's, out of scope). -/
def applyCmd (st : ExecState) : HostCmd → Except HostError ExecState
  | HostCmd.bodyInsertParagraph t loc =>
    match loc with
    | InsertLocation.start =>
      Except.ok { st with doc := { st.doc with paragraphs := newParagraph t :: st.doc.paragraphs } }
    | InsertLocation.atEnd =>
      Except.ok { st with doc := { st.doc with paragraphs := st.doc.paragraphs ++ [newParagraph t] } }
    | _ => Except.error HostError.invalidArgument
  | HostCmd.selInsertText t loc =>
    match loc with
    | InsertLocation.atEnd =>
      Except.ok { st with doc := { st.doc with selText := st.doc.selText ++ t } }
    | InsertLocation.start =>
      Except.ok { st with doc := { st.doc with selText := t ++ st.doc.selText } }
    | InsertLocation.before =>
      Except.ok { st with doc := { st.doc with selBefore := st.doc.selBefore ++ t } }
    | InsertLocation.after =>
      Except.ok { st with doc := { st.doc with selAfter := t ++ st.doc.selAfter } }
    | InsertLocation.replace =>
      Except.ok { st with doc := { st.doc with selText := t } }
  | HostCmd.setStyleBuiltIn p s => modifyPara st p (fun q => { q with styleBuiltIn := s })
  | HostCmd.setStyle p s => modifyPara st p (fun q => { q with style := s })
  | HostCmd.setFont p f => modifyPara st p (fun q => { q with font := f })
  | HostCmd.paraInsertParagraph p t loc => do
    let i ← resolvePara st p
    match loc with
    | InsertLocation.after =>
      Except.ok { doc := { st.doc with paragraphs := insertAt st.doc.paragraphs (i + 1) (newParagraph t) }
                  created := st.created ++ [i + 1] }
    | InsertLocation.before =>
      Except.ok { doc := { st.doc with paragraphs := insertAt st.doc.paragraphs i (newParagraph t) }
                  created := st.created ++ [i] }
    | _ => Except.error HostError.invalidArgument
  | HostCmd.paraInsertHtml p h loc =>
    match loc with
    | InsertLocation.atEnd => modifyPara st p (fun q => { q with text := q.text ++ h })
    | InsertLocation.start => modifyPara st p (fun q => { q with text := h ++ q.text })
    | _ => Except.error HostError.invalidArgument

/-- Host model: execute a queued batch in order; the first failing
command aborts the batch with its error. -/
def runQueue (st : ExecState) : List HostCmd → Except HostError ExecState
  | [] => Except.ok st
  | c :: cs => do runQueue (← applyCmd st c) cs

/-- Host model of the `Word.run` request context: the document, the
commands queued since the last sync, how many paragraph proxies the
current batch has created, the selection range's loaded `text` property
(available only after `load` plus sync), whether a load is pending, and
how many sync round-trips have completed. -/
structure RunContext where
  doc : WordDoc
  queued : List HostCmd
  createdCount : Nat
  rangeTextLoaded : Option String
  loadRequested : Bool
  syncCount : Nat
deriving Repr, DecidableEq

/-- Host model: the fresh context `Word.run` hands to its batch
function. -/
def RunContext.fresh (d : WordDoc) : RunContext :=
  { doc := d
    queued := []
    createdCount := 0
    rangeTextLoaded := none
    loadRequested := false
    syncCount := 0 }

/-- Host model: queue one mutation command. -/
def RunContext.queue (ctx : RunContext) (c : HostCmd) : RunContext :=
  { ctx with queued := ctx.queued ++ [c] }

/-- Host model: `paragraphProxy.insertParagraph(text, loc)` queues the
insertion and returns a proxy for the paragraph it will create. -/
def RunContext.paraInsertParagraph (ctx : RunContext) (p : ParaRef) (t : String)
    (loc : InsertLocation) : RunContext × ParaRef :=
  ({ ctx with
      queued := ctx.queued ++ [HostCmd.paraInsertParagraph p t loc]
      createdCount := ctx.createdCount + 1 },
   ParaRef.created ctx.createdCount)

/-- Host model: `range.load("text")` on the selection range. -/
def RunContext.loadRangeText (ctx : RunContext) : RunContext :=
  { ctx with loadRequested := true }

/-- Host model: `context.sync()` flushes the queued batch against the
document and, when a load was requested, makes the selection range's
text readable; failures of queued commands surface here. -/
def RunContext.sync (ctx : RunContext) : Except HostError RunContext := do
  let st ← runQueue { doc := ctx.doc, created := [] } ctx.queued
  Except.ok
    { doc := st.doc
      queued := []
      createdCount := 0
      rangeTextLoaded := if ctx.loadRequested then some st.doc.selText else ctx.rangeTextLoaded
      loadRequested := false
      syncCount := ctx.syncCount + 1 }

/-- Host model: reading `range.text` before a `load` plus sync is a host
failure. -/
def RunContext.readRangeText (ctx : RunContext) : Except HostError String :=
  match ctx.rangeTextLoaded with
  | some t => Except.ok t
  | none => Except.error HostError.propertyNotLoaded

/-- Host model of `Word.run`: hand a fresh request context for the given
document to the batch function. -/
def wordRun (f : RunContext → Except HostError RunContext) (d : WordDoc) :
    Except HostError RunContext :=
  f (RunContext.fresh d)

/-- Handler `insertParagraph` (taskpane.js lines 27-38): queue a body
paragraph insertion of the fixed literal at the start location, then
sync. -/
def insertParagraph (d : WordDoc) : Except HostError RunContext :=
  wordRun (fun ctx =>
    (ctx.queue (HostCmd.bodyInsertParagraph
      "Office has several versions, including Office 2016, Microsoft 365 subscription, and Office on the web."
      InsertLocation.start)).sync) d

/-- Handler `applyStyle` (lines 40-48): set the built-in style of the
first paragraph to `intenseReference`, then sync. -/
def applyStyle (d : WordDoc) : Except HostError RunContext :=
  wordRun (fun ctx =>
    (ctx.queue (HostCmd.setStyleBuiltIn ParaRef.first BuiltInStyle.intenseReference)).sync) d

/-- Handler `applyCustomStyle` (lines 50-58): set the named style of the
last paragraph to "MyCustomStyle", then sync.  (Whether that style is
defined in the document is resolved inside the host and is outside this
model.) -/
def applyCustomStyle (d : WordDoc) : Except HostError RunContext :=
  wordRun (fun ctx =>
    (ctx.queue (HostCmd.setStyle ParaRef.last "MyCustomStyle")).sync) d

/-- Handler `changeFont` (lines 60-72): set the font of
`paragraphs.getFirst().getNext()` to Courier New, bold, size 18, then
sync. -/
def changeFont (d : WordDoc) : Except HostError RunContext :=
  wordRun (fun ctx =>
    (ctx.queue (HostCmd.setFont (ParaRef.next ParaRef.first)
      { name := "Courier New", bold := true, size := 18 })).sync) d

/-- Handler `insertTextIntoRange` (lines 79-95): insert " (M365)" at the
end of the selection range, load the range text and sync, then append a
paragraph echoing the range text and sync again. -/
def insertTextIntoRange (d : WordDoc) : Except HostError RunContext :=
  wordRun (fun ctx => do
    let ctx := ctx.queue (HostCmd.selInsertText " (M365)" InsertLocation.atEnd)
    let ctx := ctx.loadRangeText
    let ctx ← ctx.sync
    let t ← ctx.readRangeText
    let ctx := ctx.queue (HostCmd.bodyInsertParagraph ("Original range: " ++ t) InsertLocation.atEnd)
    ctx.sync) d

/-- Handler `insertTextBeforeRange` (lines 102-120): insert
"Office 2019, " before the selection range, load the range text and
sync, then append a paragraph echoing the (unchanged) range text and
sync again. -/
def insertTextBeforeRange (d : WordDoc) : Except HostError RunContext :=
  wordRun (fun ctx => do
    let ctx := ctx.queue (HostCmd.selInsertText "Office 2019, " InsertLocation.before)
    let ctx := ctx.loadRangeText
    let ctx ← ctx.sync
    let t ← ctx.readRangeText
    let ctx := ctx.queue (HostCmd.bodyInsertParagraph ("Current text of original range: " ++ t)
      InsertLocation.atEnd)
    ctx.sync) d

/-- Handler `replaceText` (lines 127-136): replace the selection range's
text by "many", then sync. -/
def replaceText (d : WordDoc) : Except HostError RunContext :=
  wordRun (fun ctx =>
    (ctx.queue (HostCmd.selInsertText "many" InsertLocation.replace)).sync) d

/-- Handler `insertHTML` (lines 147-164): insert a blank paragraph after
the last one, inject the raw HTML fragment at the end of that new
paragraph, then sync once. -/
def insertHTML (d : WordDoc) : Except HostError RunContext :=
  wordRun (fun ctx => do
    let (ctx, blankParagraph) := ctx.paraInsertParagraph ParaRef.last "" InsertLocation.after
    let ctx := ctx.queue (HostCmd.paraInsertHtml blankParagraph
      "<p style=\"font-family: verdana;\">Inserted HTML.</p><p>Another paragraph</p>"
      InsertLocation.atEnd)
    ctx.sync) d

/-- Wrapper `tryCatch` (lines 167-175): run the callback; a thrown error
is caught and logged via `console.error`, never rethrown.  The model
returns the callback's value (if any) together with the list of errors
logged; totality of the function is the model of "the exception never
propagates to the caller". -/
def tryCatch (callback : Unit → Except ε α) : Option α × List ε :=
  match callback () with
  | Except.ok a => (some a, [])
  | Except.error e => (none, [e])

/-- Host model of `Office.HostType`: the host identifying itself in the
readiness descriptor; `word` is the expected word-processing host. -/
inductive HostType where
  | word
  | excel
  | powerPoint
  | outlook
deriving Repr, DecidableEq

/-- Host model of the descriptor `info` passed to the `Office.onReady`
callback. -/
structure OfficeInfo where
  host : HostType
deriving Repr, DecidableEq

/-- Model of the task pane UI touched by the bootstrap: which button
element identifiers have had `onclick` handlers assigned (in assignment
order), and the CSS `display` values of the sideload placeholder and the
application body container. -/
structure UIState where
  boundButtons : List String
  sideloadMsgDisplay : String
  appBodyDisplay : String
deriving Repr, DecidableEq

/-- The nine button element identifiers wired by the bootstrap, in source
order (taskpane.js lines 12-20); each is bound to `tryCatch` of its
handler. -/
def buttonIds : List String :=
  ["insert-paragraph", "apply-style", "apply-custom-style", "change-font",
   "insert-text-into-range", "insert-text-outside-range", "replace-text",
   "insert-image", "insert-html"]

/-- The `Office.onReady` callback (taskpane.js lines 9-25): when the
reported host is Word, assign the nine button handlers, hide the
sideload placeholder and show the app body; otherwise do nothing. -/
def onReadyCallback (info : OfficeInfo) (ui : UIState) : UIState :=
  if info.host = HostType.word then
    { ui with
        boundButtons := ui.boundButtons ++ buttonIds
        sideloadMsgDisplay := "none"
        appBodyDisplay := "flex" }
  else ui

/-- Modelled from the spec: the initial task pane markup (the HTML file
is not under src) shows the sideload placeholder and hides the
application body, and no handler is bound before the script runs. -/
def startUI : UIState :=
  { boundButtons := [], sideloadMsgDisplay := "block", appBodyDisplay := "none" }

/-- Host model: the observable events of a session: the host runtime
firing the registered readiness callback with its descriptor, or time
passing with nothing relevant happening. -/
inductive HostEvent where
  | tick
  | ready (info : OfficeInfo)
deriving Repr, DecidableEq

/-- Host model: the effect of one session event on the UI; only the
readiness callback (the sole code the script registers) can change it. -/
def stepEvent (ui : UIState) : HostEvent → UIState
  | HostEvent.tick => ui
  | HostEvent.ready info => onReadyCallback info ui

/-- Host model: run a session, i.e. fold the observable events over the
initial UI state. -/
def runSession (events : List HostEvent) : UIState :=
  events.foldl stepEvent startUI

/-- The fixed literal inserted by the `insertParagraph` handler
(taskpane.js lines 31-34). -/
def officeVersionsText : String :=
  "Office has several versions, including Office 2016, Microsoft 365 subscription, and Office on the web."

/-- A successful `Except` value feeds its payload to the continuation. -/
theorem ok_bind {ε α β : Type} (a : α) (f : α → Except ε β) :
    (Except.ok a : Except ε α) >>= f = f a := rfl

/-- Inserting below a head element commutes with the head. -/
theorem insertAt_cons_succ (a : α) (l : List α) (i : Nat) (b : α) :
    insertAt (a :: l) (i + 1) b = a :: insertAt l i b := rfl

/-- Inserting at the length of a list appends. -/
theorem insertAt_length_self (l : List α) (b : α) :
    insertAt l l.length b = l ++ [b] := by
  simp [insertAt, List.take_length, List.drop_length]

/-- Replacing below a head element commutes with the head. -/
theorem setAt_cons_succ (a : α) (l : List α) (i : Nat) (b : α) :
    setAt (a :: l) (i + 1) b = a :: setAt l i b := rfl

/-- Replacing the element just past a prefix of known length. -/
theorem setAt_length_append (l : List α) (b c : α) (l' : List α) :
    setAt (l ++ b :: l') l.length c = l ++ c :: l' := by
  induction l with
  | nil => rfl
  | cons x xs ih => simp [List.cons_append, setAt_cons_succ, ih]

/-- Looking up the element just past a prefix of known length. -/
theorem get?_length_append (l : List α) (b : α) (l' : List α) :
    (l ++ b :: l').get? l.length = some b := by
  induction l with
  | nil => rfl
  | cons x xs ih => simpa [List.cons_append] using ih

/-- A stretch of session events containing no readiness callback leaves
the UI untouched: the readiness callback is the only code the script
registers. -/
theorem foldl_stepEvent_no_ready (es : List HostEvent)
    (h : ∀ i : OfficeInfo, HostEvent.ready i ∉ es) (u : UIState) :
    es.foldl stepEvent u = u := by
  induction es generalizing u with
  | nil => rfl
  | cons e t ih =>
    cases e with
    | tick =>
      rw [List.foldl_cons]
      exact ih (fun i hi => h i (List.mem_cons_of_mem _ hi)) u
    | ready info => exact absurd (List.mem_cons_self _ _) (h info)

/-- C1: for every asynchronous action passed to `tryCatch`, if the
action throws then the invocation completes without propagating the
exception (the wrapper is a total function into results-plus-log) and
the error is logged exactly once; if the action succeeds, nothing is
logged. -/
theorem tryCatch_spec {ε α : Type} (e : ε) (a : α) :
    tryCatch (fun _ => (Except.error e : Except ε α)) = (none, [e]) ∧
    tryCatch (fun _ => (Except.ok a : Except ε α)) = (some a, []) :=
  ⟨rfl, rfl⟩

/-- Witness for C1 at a concrete error and a concrete value. -/
theorem tryCatch_spec_witness :
    tryCatch (fun _ => (Except.error HostError.itemNotFound : Except HostError Unit)) =
      (none, [HostError.itemNotFound]) ∧
    tryCatch (fun _ => (Except.ok () : Except HostError Unit)) = (some (), []) :=
  tryCatch_spec HostError.itemNotFound ()

/-- C2: for every document whose selection is exactly "Microsoft 365",
`insertTextIntoRange` succeeds; the selection's text becomes
"Microsoft 365 (M365)" (inserting at the end location extended the
range), a trailing paragraph "Original range: Microsoft 365 (M365)" is
appended, and exactly two sync round-trips happen, the range text having
been loaded at the first (a read before it would have failed with
`propertyNotLoaded`). -/
theorem insertTextIntoRange_spec (ps : List Paragraph) (sb sa : String) :
    insertTextIntoRange { paragraphs := ps, selBefore := sb, selText := "Microsoft 365", selAfter := sa } =
      Except.ok
        { doc := { paragraphs := ps ++ [newParagraph "Original range: Microsoft 365 (M365)"]
                   selBefore := sb
                   selText := "Microsoft 365 (M365)"
                   selAfter := sa }
          queued := []
          createdCount := 0
          rangeTextLoaded := some "Microsoft 365 (M365)"
          loadRequested := false
          syncCount := 2 } := rfl

/-- Witness for C2 on a concrete document. -/
theorem insertTextIntoRange_spec_witness :
    insertTextIntoRange { paragraphs := [], selBefore := "x ", selText := "Microsoft 365", selAfter := " y" } =
      Except.ok
        { doc := { paragraphs := [newParagraph "Original range: Microsoft 365 (M365)"]
                   selBefore := "x "
                   selText := "Microsoft 365 (M365)"
                   selAfter := " y" }
          queued := []
          createdCount := 0
          rangeTextLoaded := some "Microsoft 365 (M365)"
          loadRequested := false
          syncCount := 2 } :=
  insertTextIntoRange_spec [] "x " " y"

/-- C3: for every document whose selection is exactly "Microsoft 364",
`insertTextBeforeRange` succeeds; the selection's own text is unchanged,
"Office 2019, " now immediately precedes the selection (so
"Office 2019, Microsoft 364" appears with the original range covering
only "Microsoft 364"), and a trailing paragraph echoes the unchanged
range text; two sync round-trips happen. -/
theorem insertTextBeforeRange_spec (ps : List Paragraph) (sb sa : String) :
    insertTextBeforeRange { paragraphs := ps, selBefore := sb, selText := "Microsoft 364", selAfter := sa } =
      Except.ok
        { doc := { paragraphs := ps ++ [newParagraph "Current text of original range: Microsoft 364"]
                   selBefore := sb ++ "Office 2019, "
                   selText := "Microsoft 364"
                   selAfter := sa }
          queued := []
          createdCount := 0
          rangeTextLoaded := some "Microsoft 364"
          loadRequested := false
          syncCount := 2 } := rfl

/-- Witness for C3 on a concrete document: the text right before the
selection ends in "Office 2019, ", so the document reads
"Office 2019, Microsoft 364" across the range boundary. -/
theorem insertTextBeforeRange_spec_witness :
    insertTextBeforeRange { paragraphs := [], selBefore := "intro ", selText := "Microsoft 364", selAfter := " outro" } =
      Except.ok
        { doc := { paragraphs := [newParagraph "Current text of original range: Microsoft 364"]
                   selBefore := "intro " ++ "Office 2019, "
                   selText := "Microsoft 364"
                   selAfter := " outro" }
          queued := []
          createdCount := 0
          rangeTextLoaded := some "Microsoft 364"
          loadRequested := false
          syncCount := 2 } :=
  insertTextBeforeRange_spec [] "intro " " outro"

/-- C4: on every document state, `insertParagraph` succeeds in one sync
and prepends the fixed literal as the new first body paragraph; invoking
it again on the result prepends a second copy, and the twice-inserted
document differs from the once-inserted one: the action is not
idempotent. -/
theorem insertParagraph_spec (d : WordDoc) :
    (insertParagraph d = Except.ok
      { doc := { d with paragraphs := newParagraph officeVersionsText :: d.paragraphs }
        queued := []
        createdCount := 0
        rangeTextLoaded := none
        loadRequested := false
        syncCount := 1 }) ∧
    (insertParagraph { d with paragraphs := newParagraph officeVersionsText :: d.paragraphs } =
      Except.ok
      { doc := { d with paragraphs := newParagraph officeVersionsText :: newParagraph officeVersionsText :: d.paragraphs }
        queued := []
        createdCount := 0
        rangeTextLoaded := none
        loadRequested := false
        syncCount := 1 }) ∧
    ({ d with paragraphs := newParagraph officeVersionsText :: newParagraph officeVersionsText :: d.paragraphs } : WordDoc) ≠
      { d with paragraphs := newParagraph officeVersionsText :: d.paragraphs } := by
  refine ⟨rfl, rfl, ?_⟩
  intro h
  have h2 := congrArg (fun w => List.length w.paragraphs) h
  simp only [List.length_cons] at h2
  omega

/-- C10: for every document with a non-empty selection, `replaceText`
succeeds in one sync, the selection's text becomes exactly "many"
whatever it contained, and nothing outside the selected range (the
surrounding text and the body paragraphs) is modified. -/
theorem replaceText_spec (ps : List Paragraph) (sb sa : String) (c : Char) (cs : List Char) :
    replaceText { paragraphs := ps, selBefore := sb, selText := String.mk (c :: cs), selAfter := sa } =
      Except.ok
        { doc := { paragraphs := ps, selBefore := sb, selText := "many", selAfter := sa }
          queued := []
          createdCount := 0
          rangeTextLoaded := none
          loadRequested := false
          syncCount := 1 } := rfl

/-- Witness for C10 on a concrete document whose selection is
"several". -/
theorem replaceText_spec_witness :
    replaceText { paragraphs := [], selBefore := "has ", selText := String.mk ('s' :: ['e', 'v', 'e', 'r', 'a', 'l']), selAfter := " versions" } =
      Except.ok
        { doc := { paragraphs := [], selBefore := "has ", selText := "many", selAfter := " versions" }
          queued := []
          createdCount := 0
          rangeTextLoaded := none
          loadRequested := false
          syncCount := 1 } :=
  replaceText_spec [] "has " " versions" 's' ['e', 'v', 'e', 'r', 'a', 'l']

/-- C5: on every document with at least two paragraphs, `changeFont`
succeeds in one sync and sets the second paragraph's font name, bold
flag and size to ("Courier New", true, 18), leaving everything else
unchanged; on every single-paragraph document the `getNext` proxy fails
to resolve at the sync, the handler signals item-not-found, and the
failure reaches the shared `tryCatch` wrapper, which logs it. -/
theorem changeFont_spec :
    (∀ (p0 p1 : Paragraph) (rest : List Paragraph) (sb st sa : String),
      changeFont { paragraphs := p0 :: p1 :: rest, selBefore := sb, selText := st, selAfter := sa } =
        Except.ok
          { doc := { paragraphs := p0 :: { p1 with font := { name := "Courier New", bold := true, size := 18 } } :: rest
                     selBefore := sb
                     selText := st
                     selAfter := sa }
            queued := []
            createdCount := 0
            rangeTextLoaded := none
            loadRequested := false
            syncCount := 1 }) ∧
    (∀ (p0 : Paragraph) (sb st sa : String),
      changeFont { paragraphs := [p0], selBefore := sb, selText := st, selAfter := sa } =
        Except.error HostError.itemNotFound ∧
      tryCatch (fun _ => changeFont { paragraphs := [p0], selBefore := sb, selText := st, selAfter := sa }) =
        (none, [HostError.itemNotFound])) :=
  ⟨fun _ _ _ _ _ _ => rfl, fun _ _ _ _ => ⟨rfl, rfl⟩⟩

/-- Witness for C5 on concrete two-paragraph and one-paragraph
documents. -/
theorem changeFont_spec_witness :
    changeFont { paragraphs := [newParagraph "a", newParagraph "b"], selBefore := "", selText := "", selAfter := "" } =
      Except.ok
        { doc := { paragraphs := [newParagraph "a", { newParagraph "b" with font := { name := "Courier New", bold := true, size := 18 } }]
                   selBefore := ""
                   selText := ""
                   selAfter := "" }
          queued := []
          createdCount := 0
          rangeTextLoaded := none
          loadRequested := false
          syncCount := 1 } ∧
    changeFont { paragraphs := [newParagraph "a"], selBefore := "", selText := "", selAfter := "" } =
      Except.error HostError.itemNotFound :=
  ⟨changeFont_spec.1 (newParagraph "a") (newParagraph "b") [] "" "" "",
   (changeFont_spec.2 (newParagraph "a") "" "" "").1⟩

/-- C6: on every document with at least one paragraph, `applyStyle`
succeeds in one sync and sets the first paragraph's built-in style to
`intenseReference`, leaving every other paragraph (and the selection)
unchanged; on the paragraph-less document the `getFirst` proxy fails to
resolve at the sync, the handler signals item-not-found, and the failure
reaches the shared `tryCatch` wrapper, which logs it. -/
theorem applyStyle_spec :
    (∀ (p0 : Paragraph) (rest : List Paragraph) (sb st sa : String),
      applyStyle { paragraphs := p0 :: rest, selBefore := sb, selText := st, selAfter := sa } =
        Except.ok
          { doc := { paragraphs := { p0 with styleBuiltIn := BuiltInStyle.intenseReference } :: rest
                     selBefore := sb
                     selText := st
                     selAfter := sa }
            queued := []
            createdCount := 0
            rangeTextLoaded := none
            loadRequested := false
            syncCount := 1 }) ∧
    (∀ (sb st sa : String),
      applyStyle { paragraphs := [], selBefore := sb, selText := st, selAfter := sa } =
        Except.error HostError.itemNotFound ∧
      tryCatch (fun _ => applyStyle { paragraphs := [], selBefore := sb, selText := st, selAfter := sa }) =
        (none, [HostError.itemNotFound])) :=
  ⟨fun _ _ _ _ _ => rfl, fun _ _ _ => ⟨rfl, rfl⟩⟩

/-- Witness for C6 on concrete one-paragraph and empty documents. -/
theorem applyStyle_spec_witness :
    applyStyle { paragraphs := [newParagraph "a", newParagraph "b"], selBefore := "", selText := "", selAfter := "" } =
      Except.ok
        { doc := { paragraphs := [{ newParagraph "a" with styleBuiltIn := BuiltInStyle.intenseReference }, newParagraph "b"]
                   selBefore := ""
                   selText := ""
                   selAfter := "" }
          queued := []
          createdCount := 0
          rangeTextLoaded := none
          loadRequested := false
          syncCount := 1 } ∧
    applyStyle { paragraphs := [], selBefore := "", selText := "", selAfter := "" } =
      Except.error HostError.itemNotFound :=
  ⟨applyStyle_spec.1 (newParagraph "a") [newParagraph "b"] "" "" "",
   (applyStyle_spec.2 "" "" "").1⟩

/-- C7, counterexample: the claim asserts that `insertHTML` inserts a
new paragraph after the last one and injects the fragment for EVERY
document state, but on the paragraph-less document the `getLast` proxy
fails to resolve at the sync and the handler signals item-not-found
instead of performing the two mutations. -/
theorem insertHTML_empty_counterexample :
    insertHTML { paragraphs := [], selBefore := "", selText := "", selAfter := "" } =
      Except.error HostError.itemNotFound := rfl

/-- C7, amended: on every document with at least one paragraph,
`insertHTML` succeeds in a single sync: it first inserts a new empty
paragraph after the last paragraph, then injects the raw HTML fragment,
exactly as given and unsanitized, at the end of that new paragraph, so
the body gains one trailing paragraph whose text is the verbatim
fragment; on the paragraph-less document the handler signals
item-not-found at the sync. -/
theorem insertHTML_spec (p0 : Paragraph) (rest : List Paragraph) (sb st sa : String) :
    insertHTML { paragraphs := p0 :: rest, selBefore := sb, selText := st, selAfter := sa } =
      Except.ok
        { doc := { paragraphs := (p0 :: rest) ++ [newParagraph "<p style=\"font-family: verdana;\">Inserted HTML.</p><p>Another paragraph</p>"]
                   selBefore := sb
                   selText := st
                   selAfter := sa }
          queued := []
          createdCount := 0
          rangeTextLoaded := none
          loadRequested := false
          syncCount := 1 } := by
  simp only [insertHTML, wordRun, RunContext.fresh, RunContext.paraInsertParagraph,
    RunContext.queue, RunContext.sync, runQueue, applyCmd, resolvePara, modifyPara,
    List.nil_append, List.singleton_append, ok_bind, insertAt_cons_succ, insertAt_length_self,
    setAt_cons_succ, setAt_length_append, List.get?_cons_zero, List.get?_cons_succ,
    get?_length_append, List.cons_append]
  rfl

/-- C8: in every session whose other events carry no readiness callback,
no handler is bound and the UI is untouched before the host fires
readiness (the callback registered with `Office.onReady` is the only
code that binds); once the callback fires with the expected
word-processing host, the nine handlers are bound, each exactly once and
in source order, the sideload placeholder is hidden and the app body
shown, and nothing changes afterwards: binding executes exactly once per
session, strictly after host-readiness confirmation. -/
theorem onReady_spec (pre post : List HostEvent) (info : OfficeInfo)
    (hpre : ∀ i : OfficeInfo, HostEvent.ready i ∉ pre)
    (hpost : ∀ i : OfficeInfo, HostEvent.ready i ∉ post)
    (hword : info.host = HostType.word) :
    runSession pre = startUI ∧
    runSession (pre ++ HostEvent.ready info :: post) =
      { boundButtons := buttonIds, sideloadMsgDisplay := "none", appBodyDisplay := "flex" } := by
  constructor
  · exact foldl_stepEvent_no_ready pre hpre startUI
  · unfold runSession
    rw [List.foldl_append, foldl_stepEvent_no_ready pre hpre startUI, List.foldl_cons,
      foldl_stepEvent_no_ready post hpost]
    simp [stepEvent, onReadyCallback, hword, startUI]

/-- Witness for C8 on a concrete session trace. -/
theorem onReady_spec_witness :
    runSession [HostEvent.tick] = startUI ∧
    runSession ([HostEvent.tick] ++ HostEvent.ready { host := HostType.word } :: [HostEvent.tick]) =
      { boundButtons := buttonIds, sideloadMsgDisplay := "none", appBodyDisplay := "flex" } :=
  onReady_spec [HostEvent.tick] [HostEvent.tick] { host := HostType.word }
    (fun i hi => by simp at hi) (fun i hi => by simp at hi) rfl

/-- C9: if the readiness callback reports any host other than the
word-processing host, the bootstrap does nothing at all: the whole
session leaves the UI in its initial state, so no button is bound to any
handler, the sideload placeholder stays visible ("block") and the app
body stays hidden ("none") - no partial initialization and no error. -/
theorem onReady_other_host_spec (pre post : List HostEvent) (info : OfficeInfo)
    (hpre : ∀ i : OfficeInfo, HostEvent.ready i ∉ pre)
    (hpost : ∀ i : OfficeInfo, HostEvent.ready i ∉ post)
    (hother : info.host ≠ HostType.word) :
    runSession (pre ++ HostEvent.ready info :: post) = startUI ∧
    (runSession (pre ++ HostEvent.ready info :: post)).boundButtons = [] ∧
    (runSession (pre ++ HostEvent.ready info :: post)).sideloadMsgDisplay = "block" ∧
    (runSession (pre ++ HostEvent.ready info :: post)).appBodyDisplay = "none" := by
  have h : runSession (pre ++ HostEvent.ready info :: post) = startUI := by
    unfold runSession
    rw [List.foldl_append, foldl_stepEvent_no_ready pre hpre startUI, List.foldl_cons,
      foldl_stepEvent_no_ready post hpost]
    simp [stepEvent, onReadyCallback, hother]
  exact ⟨h, by rw [h]; rfl, by rw [h]; rfl, by rw [h]; rfl⟩

/-- Witness for C9 on a concrete session trace reporting Excel as the
host. -/
theorem onReady_other_host_spec_witness :
    runSession ([HostEvent.tick] ++ HostEvent.ready { host := HostType.excel } :: [HostEvent.tick]) = startUI ∧
    (runSession ([HostEvent.tick] ++ HostEvent.ready { host := HostType.excel } :: [HostEvent.tick])).boundButtons = [] ∧
    (runSession ([HostEvent.tick] ++ HostEvent.ready { host := HostType.excel } :: [HostEvent.tick])).sideloadMsgDisplay = "block" ∧
    (runSession ([HostEvent.tick] ++ HostEvent.ready { host := HostType.excel } :: [HostEvent.tick])).appBodyDisplay = "none" :=
  onReady_other_host_spec [HostEvent.tick] [HostEvent.tick] { host := HostType.excel }
    (fun i hi => by simp at hi) (fun i hi => by simp at hi) (by decide)

/-- Witness for C4 on a concrete (empty-body) document. -/
theorem insertParagraph_spec_witness :
    (insertParagraph { paragraphs := [], selBefore := "", selText := "", selAfter := "" } =
      Except.ok
        { doc := { paragraphs := [newParagraph officeVersionsText], selBefore := "", selText := "", selAfter := "" }
          queued := []
          createdCount := 0
          rangeTextLoaded := none
          loadRequested := false
          syncCount := 1 }) ∧
    ({ paragraphs := [newParagraph officeVersionsText, newParagraph officeVersionsText], selBefore := "", selText := "", selAfter := "" } : WordDoc) ≠
      { paragraphs := [newParagraph officeVersionsText], selBefore := "", selText := "", selAfter := "" } :=
  ⟨(insertParagraph_spec { paragraphs := [], selBefore := "", selText := "", selAfter := "" }).1,
   (insertParagraph_spec { paragraphs := [], selBefore := "", selText := "", selAfter := "" }).2.2⟩

/-- Witness for C7 (amended) on a concrete one-paragraph document. -/
theorem insertHTML_spec_witness :
    insertHTML { paragraphs := [newParagraph "a"], selBefore := "", selText := "", selAfter := "" } =
      Except.ok
        { doc := { paragraphs := [newParagraph "a"] ++ [newParagraph "<p style=\"font-family: verdana;\">Inserted HTML.</p><p>Another paragraph</p>"]
                   selBefore := ""
                   selText := ""
                   selAfter := "" }
          queued := []
          createdCount := 0
          rangeTextLoaded := none
          loadRequested := false
          syncCount := 1 } :=
  insertHTML_spec (newParagraph "a") [] "" "" ""
